import Mathlib

/-!
Verification of the ULoRa SX127x driver (src/ulora/core.py) against its
natural-language specification.

The shallow embedding below translates the driver functions into pure Lean
functions.  Machine bytes are modelled as natural numbers (register reads
always produce a value in [0,255]); the register file of the chip is modelled as
a total function from addresses to values; driver methods that perform SPI
register writes are modelled as functions that return the written
(address, value) pairs or the updated register file, together with their
Python return value.  All numeric configuration inputs are modelled as
natural numbers, on which Python integer arithmetic and Lean Nat
arithmetic agree for every input used in this development.
-/

set_option maxRecDepth 8192

namespace ULoRa

/- Register addresses, core.py lines 20-50. -/

def REG_FIFO : ℕ := 0x00
def REG_OP_MODE : ℕ := 0x01
def REG_FRF_MSB : ℕ := 0x06
def REG_FRF_MID : ℕ := 0x07
def REG_FRF_LSB : ℕ := 0x08
def REG_PA_CONFIG : ℕ := 0x09
def REG_FIFO_ADDR_PTR : ℕ := 0x0D
def REG_IRQ_FLAGS : ℕ := 0x12
def REG_MODEM_CONFIG_1 : ℕ := 0x1D
def REG_MODEM_CONFIG_2 : ℕ := 0x1E
def REG_PREAMBLE_MSB : ℕ := 0x20
def REG_PREAMBLE_LSB : ℕ := 0x21
def REG_PAYLOAD_LENGTH : ℕ := 0x22
def REG_MODEM_CONFIG_3 : ℕ := 0x26
def REG_DETECTION_OPTIMIZE : ℕ := 0x31
def REG_DETECTION_THRESHOLD : ℕ := 0x37
def REG_VERSION : ℕ := 0x42

/- Mode and power settings, core.py lines 55-64. -/

def MODE_LONG_RANGE_MODE : ℕ := 0x80
def MODE_RX_SINGLE : ℕ := 0x06
def PA_OUTPUT_RFO_PIN : ℕ := 0
def PA_OUTPUT_PA_BOOST_PIN : ℕ := 0x01
def PA_BOOST : ℕ := 0x80

/- IRQ masks, core.py lines 69-72. -/

def IRQ_RX_DONE_MASK : ℕ := 0x40

/- Other definitions, core.py lines 89-91. -/

def MAX_PKT_LENGTH : ℕ := 255
def FifoTxBaseAddr : ℕ := 0x00
def FifoRxBaseAddr : ℕ := 0x00

/-- The register file of the chip: a total map from register address to the
byte currently held there. -/
def RegState : Type := ℕ → ℕ

/-- Effect of one register write on the register file. -/
def wreg (s : RegState) (a v : ℕ) : RegState := fun x => if x = a then v else s x

/- ------------------------------------------------------------------ -/
/- ULoRa.write, core.py lines 218-233.

       current_length = self.read_register(REG_PAYLOAD_LENGTH)
       size = len(buffer)
       size = min(size, MAX_PKT_LENGTH - FifoTxBaseAddr - current_length)
       for byte in buffer:
           self.write_register(REG_FIFO, byte)
       self.write_register(REG_PAYLOAD_LENGTH, current_length + size)
       return size

   Inputs: the FIFO contents already written, the value read from the
   payload-length register, and the buffer.  Output: the FIFO contents
   after the call, the value written back to the payload-length register,
   and the Python return value.  Note the loop runs over the WHOLE buffer:
   every byte of the buffer is pushed to the FIFO, while only the clamped
   size is recorded and returned. -/

def write (fifo : List ℕ) (current_length : ℕ) (buffer : List ℕ) :
    List ℕ × ℕ × ℕ :=
  let size := min buffer.length (MAX_PKT_LENGTH - FifoTxBaseAddr - current_length)
  (fifo ++ buffer, current_length + size, size)

/- ------------------------------------------------------------------ -/
/- Version probe in ULoRa.__init__, core.py lines 145-156.

       version = None
       for _ in range(5):
           version = self.read_register(REG_VERSION)
           if version:
               break
       if version != 0x12:
           machine.reset()

   The environment is modelled as a function dev from poll index to the
   byte the chip answers on that read.  probeLoop returns the final value
   of the Python variable version together with the list of reads actually
   performed (the loop breaks at the first truthy, i.e. nonzero, read; if
   all reads are falsy the final value is the last read, which is 0). -/

def probeLoop (dev : ℕ → ℕ) : ℕ → ℕ → ℕ × List ℕ
  | _, 0 => (0, [])
  | i, fuel + 1 =>
    let v := dev i
    if v ≠ 0 then (v, [v])
    else
      let r := probeLoop dev (i + 1) fuel
      (r.1, v :: r.2)

/-- The five-iteration version probe of the constructor. -/
def version_probe (dev : ℕ → ℕ) : ℕ × List ℕ := probeLoop dev 0 5

/-- The fatal branch of the constructor (machine.reset()), taken when the final
value of version differs from 0x12. -/
def init_fatal (dev : ℕ → ℕ) : Prop := (version_probe dev).1 ≠ 0x12

/- ------------------------------------------------------------------ -/
/- ULoRa.set_signal_bandwidth, core.py lines 421-438.

       bins = (7800, 10400, 15600, 20800, 31250, 41700, 62500, 125000, 250000)
       bw_index = 7
       if sbw < 10:
           bw_index = int(sbw)
       else:
           for i, bw in enumerate(bins):
               if sbw <= bw:
                   bw_index = i
                   break
       current = self.read_register(REG_MODEM_CONFIG_1) & 0x0F
       self.write_register(REG_MODEM_CONFIG_1, current | (bw_index << 4))  -/

def bins : List ℕ := [7800, 10400, 15600, 20800, 31250, 41700, 62500, 125000, 250000]

def bwIndexLoop (sbw : ℕ) : List ℕ → ℕ → ℕ
  | [], _ => 7
  | b :: rest, i => if sbw ≤ b then i else bwIndexLoop sbw rest (i + 1)

def bwIndex (sbw : ℕ) : ℕ :=
  if sbw < 10 then sbw else bwIndexLoop sbw bins 0

def set_signal_bandwidth (s : RegState) (sbw : ℕ) : RegState :=
  let bw_index := bwIndex sbw
  let current := s REG_MODEM_CONFIG_1 &&& 0x0F
  wreg s REG_MODEM_CONFIG_1 (current ||| (bw_index <<< 4))

/-- Entry of the bandwidth bin table at a given position. -/
def binAt (i : ℕ) : ℕ := bins.getD i 0

/- ------------------------------------------------------------------ -/
/- ULoRa.set_spreading_factor, core.py lines 405-419.

       sf = min(max(sf, 6), 12)
       if sf == 6:
           self.write_register(REG_DETECTION_OPTIMIZE, 0xC5)
           self.write_register(REG_DETECTION_THRESHOLD, 0x0C)
       else:
           self.write_register(REG_DETECTION_OPTIMIZE, 0xC3)
           self.write_register(REG_DETECTION_THRESHOLD, 0x0A)
       current = self.read_register(REG_MODEM_CONFIG_2) & 0x0F
       self.write_register(REG_MODEM_CONFIG_2, current | ((sf << 4) & 0xF0))  -/

def set_spreading_factor (s : RegState) (sf : ℕ) : RegState :=
  let sf := min (max sf 6) 12
  let s1 :=
    if sf = 6 then
      wreg (wreg s REG_DETECTION_OPTIMIZE 0xC5) REG_DETECTION_THRESHOLD 0x0C
    else
      wreg (wreg s REG_DETECTION_OPTIMIZE 0xC3) REG_DETECTION_THRESHOLD 0x0A
  let current := s1 REG_MODEM_CONFIG_2 &&& 0x0F
  wreg s1 REG_MODEM_CONFIG_2 (current ||| ((sf <<< 4) &&& 0xF0))

/- ------------------------------------------------------------------ -/
/- ULoRa.set_coding_rate, core.py lines 440-449.

       denominator = min(max(denominator, 5), 8)
       cr = denominator - 4
       current = self.read_register(REG_MODEM_CONFIG_1) & 0xF1
       self.write_register(REG_MODEM_CONFIG_1, current | (cr << 1))  -/

def set_coding_rate (s : RegState) (denominator : ℕ) : RegState :=
  let denominator := min (max denominator 5) 8
  let cr := denominator - 4
  let current := s REG_MODEM_CONFIG_1 &&& 0xF1
  wreg s REG_MODEM_CONFIG_1 (current ||| (cr <<< 1))

/- ------------------------------------------------------------------ -/
/- ULoRa.enable_crc, core.py lines 460-471.

       modem_config_2 = self.read_register(REG_MODEM_CONFIG_2)
       if enable_crc:
           config = modem_config_2 | 0x04
       else:
           config = modem_config_2 & 0xFB
       self.write_register(REG_MODEM_CONFIG_2, config)  -/

def enable_crc (s : RegState) (enable : Bool) : RegState :=
  let modem_config_2 := s REG_MODEM_CONFIG_2
  let config := if enable then modem_config_2 ||| 0x04 else modem_config_2 &&& 0xFB
  wreg s REG_MODEM_CONFIG_2 config

/- ------------------------------------------------------------------ -/
/- ULoRa.set_implicit_header, core.py lines 498-511.

       if self.implicit_header_mode != implicit:
           self.implicit_header_mode = implicit
           modem_config_1 = self.read_register(REG_MODEM_CONFIG_1)
           if implicit:
               config = modem_config_1 | 0x01
           else:
               config = modem_config_1 & 0xFE
           self.write_register(REG_MODEM_CONFIG_1, config)

   The cached attribute implicit_header_mode starts as None in __init__
   (a tri-state: unknown / true / false), modelled as Option Bool.  The
   result records the new cache, the new ModemConfig1 value and the number
   of register reads and register writes performed by the call. -/

structure HdrSt where
  cache : Option Bool
  mc1 : ℕ

def set_implicit_header (st : HdrSt) (implicit : Bool) : HdrSt × ℕ × ℕ :=
  if st.cache ≠ some implicit then
    let config := if implicit then st.mc1 ||| 0x01 else st.mc1 &&& 0xFE
    (⟨some implicit, config⟩, 1, 1)
  else (st, 0, 0)

/- ------------------------------------------------------------------ -/
/- ULoRa.set_tx_power, core.py lines 377-390: the value written to
   REG_PA_CONFIG.

       if output_pin == PA_OUTPUT_RFO_PIN:
           level = min(max(level, 0), 14)
           self.write_register(REG_PA_CONFIG, 0x70 | level)
       else:
           level = min(max(level, 2), 17)
           self.write_register(REG_PA_CONFIG, PA_BOOST | (level - 2))  -/

def set_tx_power (level output_pin : ℕ) : ℕ :=
  if output_pin = PA_OUTPUT_RFO_PIN then 0x70 ||| min (max level 0) 14
  else PA_BOOST ||| (min (max level 2) 17 - 2)

/- ------------------------------------------------------------------ -/
/- ULoRa.set_frequency, core.py lines 392-403: the register writes made.

       frequency += self.parameters[frequency_offset]
       frf = (frequency << 19) // 32000000
       self.write_register(REG_FRF_MSB, (frf >> 16) & 0xFF)
       self.write_register(REG_FRF_MID, (frf >> 8) & 0xFF)
       self.write_register(REG_FRF_LSB, frf & 0xFF)  -/

def set_frequency (frequency frequency_offset : ℕ) : List (ℕ × ℕ) :=
  let f := frequency + frequency_offset
  let frf := (f <<< 19) / 32000000
  [(REG_FRF_MSB, (frf >>> 16) &&& 0xFF),
   (REG_FRF_MID, (frf >>> 8) &&& 0xFF),
   (REG_FRF_LSB, frf &&& 0xFF)]

/- ------------------------------------------------------------------ -/
/- ULoRa.set_preamble_length, core.py lines 451-458: the bytes written to
   REG_PREAMBLE_MSB and REG_PREAMBLE_LSB.

       self.write_register(REG_PREAMBLE_MSB, (length >> 8) & 0xFF)
       self.write_register(REG_PREAMBLE_LSB, length & 0xFF)  -/

def set_preamble_length (length : ℕ) : ℕ × ℕ :=
  ((length >>> 8) &&& 0xFF, length &&& 0xFF)

/- ------------------------------------------------------------------ -/
/- ULoRa.receive, core.py lines 266-275: the value written to
   REG_PAYLOAD_LENGTH when the expected size is nonzero.

       self.set_implicit_header(size > 0)
       if size > 0:
           self.write_register(REG_PAYLOAD_LENGTH, size & 0xFF)  -/

def receive_payload_length (size : ℕ) : Option ℕ :=
  if 0 < size then some (size &&& 0xFF) else none

/- ------------------------------------------------------------------ -/
/- ULoRa.get_irq_flags, core.py lines 331-339.

       irq_flags = self.read_register(REG_IRQ_FLAGS)
       self.write_register(REG_IRQ_FLAGS, irq_flags)
       return irq_flags

   Input: the byte read from REG_IRQ_FLAGS.  Output: the Python return
   value and the register writes performed. -/

def get_irq_flags (irq : ℕ) : ℕ × List (ℕ × ℕ) := (irq, [(REG_IRQ_FLAGS, irq)])

/-- Modelled from the spec: the chip side of the IRQ-flags register, which
is not part of the repository.  Per the glossary, the register latches
event occurrences until explicitly cleared, and per section 4.3 a latched
flag is cleared by writing that flag bit back; so a write clears exactly
the bits that are set in the written byte and leaves the rest latched. -/
def irqAfterWrite (irq w : ℕ) : ℕ := irq &&& (0xFF ^^^ (w &&& 0xFF))

/- ------------------------------------------------------------------ -/
/- ULoRa.received_packet, core.py lines 292-310.

       irq_flags = self.get_irq_flags()
       self.set_implicit_header(size > 0)
       if size > 0:
           self.write_register(REG_PAYLOAD_LENGTH, size & 0xFF)
       if irq_flags == IRQ_RX_DONE_MASK:
           return True
       else:
           if self.read_register(REG_OP_MODE) != (MODE_LONG_RANGE_MODE | MODE_RX_SINGLE):
               self.write_register(REG_FIFO_ADDR_PTR, FifoRxBaseAddr)
               self.write_register(REG_OP_MODE, MODE_LONG_RANGE_MODE | MODE_RX_SINGLE)
       return False

   Inputs: the cached implicit_header_mode, the bytes the chip currently
   holds in ModemConfig1, IrqFlags and OpMode, and the size argument.
   Output: the Python return value, the ordered list of register writes
   performed, and the new cached header mode.  The set_implicit_header
   call is inlined (its read of ModemConfig1 happens only on the branch
   that writes). -/

def received_packet (cache : Option Bool) (mc1 irq op_mode size : ℕ) :
    Bool × List (ℕ × ℕ) × Option Bool :=
  let impl : Bool := decide (0 < size)
  let hdr : Option Bool × List (ℕ × ℕ) :=
    if cache ≠ some impl then
      (some impl, [(REG_MODEM_CONFIG_1, if impl then mc1 ||| 0x01 else mc1 &&& 0xFE)])
    else (cache, [])
  let len_writes : List (ℕ × ℕ) :=
    if 0 < size then [(REG_PAYLOAD_LENGTH, size &&& 0xFF)] else []
  let ws := [(REG_IRQ_FLAGS, irq)] ++ hdr.2 ++ len_writes
  if irq = IRQ_RX_DONE_MASK then (true, ws, hdr.1)
  else if op_mode ≠ MODE_LONG_RANGE_MODE ||| MODE_RX_SINGLE then
    (false,
     ws ++ [(REG_FIFO_ADDR_PTR, FifoRxBaseAddr),
            (REG_OP_MODE, MODE_LONG_RANGE_MODE ||| MODE_RX_SINGLE)],
     hdr.1)
  else (false, ws, hdr.1)

/- ------------------------------------------------------------------ -/
/- Low-data-rate-optimization check in ULoRa.__init__, core.py 178-182.

       bw = self.parameters[signal_bandwidth]
       sf = self.parameters[spreading_factor]
       if (1000 / bw / (2 ** sf)) > 16:
           self.write_register(REG_MODEM_CONFIG_3,
                               self.read_register(REG_MODEM_CONFIG_3) | 0x08)

   Python true division on the configured bandwidth is modelled with exact
   rational arithmetic. -/

def init_low_data_rate_optimize (s : RegState) (bw : ℚ) (sf : ℕ) : RegState :=
  if 1000 / bw / 2 ^ sf > 16 then
    wreg s REG_MODEM_CONFIG_3 (s REG_MODEM_CONFIG_3 ||| 0x08)
  else s

/-- A sample register file used to instantiate theorems at a concrete state. -/
def regSample : RegState := fun _ => 0xA7

/- ================================================================== -/
/- Helper lemmas about bytes and bit-fields.                          -/
/- ================================================================== -/

lemma and_255_eq_mod (x : ℕ) : x &&& 255 = x % 256 := by
  simpa using Nat.and_pow_two_sub_one_eq_mod x 8

lemma shr_16_eq_div (x : ℕ) : x >>> 16 = x / 65536 := by
  simpa using Nat.shiftRight_eq_div_pow x 16

lemma shr_8_eq_div (x : ℕ) : x >>> 8 = x / 256 := by
  simpa using Nat.shiftRight_eq_div_pow x 8

lemma nibble_insert : ∀ v < 256, ∀ k < 16,
    ((v &&& 0x0F) ||| (k <<< 4)) &&& 0x0F = v &&& 0x0F ∧
    ((v &&& 0x0F) ||| (k <<< 4)) >>> 4 = k := by decide

lemma sf_field : ∀ v < 256, ∀ k < 16,
    ((v &&& 0x0F) ||| ((k <<< 4) &&& 0xF0)) &&& 0x0F = v &&& 0x0F ∧
    ((v &&& 0x0F) ||| ((k <<< 4) &&& 0xF0)) >>> 4 = k := by decide

lemma cr_field : ∀ v < 256, ∀ c < 5, 1 ≤ c →
    ((v &&& 0xF1) ||| (c <<< 1)) &&& 0xF1 = v &&& 0xF1 ∧
    (((v &&& 0xF1) ||| (c <<< 1)) >>> 1) &&& 0x07 = c := by decide

lemma crc_bit : ∀ v < 256,
    (v ||| 0x04) &&& 0xFB = v &&& 0xFB ∧
    (v &&& 0xFB) &&& 0xFB = v &&& 0xFB := by decide

lemma hdr_bit : ∀ v < 256,
    (v ||| 0x01) &&& 0xFE = v &&& 0xFE ∧
    (v &&& 0xFE) &&& 0xFE = v &&& 0xFE := by decide

lemma ldo_bit : ∀ v < 256, v &&& 8 = 0 → (v ||| 8) &&& 8 = 8 := by decide

lemma irq_self_clear : ∀ v < 256, v &&& (0xFF ^^^ (v &&& 0xFF)) = 0 := by decide

/- ================================================================== -/
/- Claim C1.                                                          -/
/- ================================================================== -/

/-- Claim C1 (code evaluated at the failing input): with payload length 0
already recorded, write on a 256-byte buffer pushes all 256 bytes into the
FIFO although it records and returns only the clamped count 255; the claim
says only min(len(buffer), 255 - L) = 255 bytes reach the FIFO. -/
theorem write_overruns_fifo :
    (write [] 0 (List.replicate 256 0)).1.length = 256 ∧
    (write [] 0 (List.replicate 256 0)).2.1 = 255 ∧
    (write [] 0 (List.replicate 256 0)).2.2 = 255 ∧
    min (List.replicate (α := ℕ) 256 0).length (255 - 0) = 255 := by
  refine ⟨?_, rfl, rfl, rfl⟩
  simp [write]

/- ================================================================== -/
/- Claim C3.                                                          -/
/- ================================================================== -/

lemma probeLoop_fatal (dev : ℕ → ℕ) :
    ∀ fuel i, ((probeLoop dev i fuel).1 ≠ 0x12 ↔ 0x12 ∉ (probeLoop dev i fuel).2) ∧
      (probeLoop dev i fuel).2.length ≤ fuel := by
  intro fuel
  induction fuel with
  | zero => intro i; simp [probeLoop]
  | succ f ih =>
    intro i
    by_cases h : dev i = 0
    · have hrec := ih (i + 1)
      simp only [probeLoop, h, ne_eq, not_true_eq_false, if_false, ite_false,
        not_false_eq_true, if_true]
      constructor
      · simp only [List.mem_cons]
        constructor
        · intro hv hc
          rcases hc with hc | hc
          · omega
          · exact (hrec.1.mp hv) hc
        · intro hv
          exact hrec.1.mpr (fun hc => hv (Or.inr hc))
      · have := hrec.2
        simpa using Nat.succ_le_succ this
    · simp only [probeLoop, h, ne_eq, not_false_eq_true, if_true, ite_true]
      constructor
      · simp [List.mem_singleton, eq_comm]
      · simp

/-- Claim C3: the constructor polls the version register up to 5 times,
and the fatal branch (host restart) is taken exactly when none of the
reads it performed returned the chip-identification byte 0x12; if any
performed read returns 0x12, construction proceeds. -/
theorem version_probe_fatal_iff (dev : ℕ → ℕ) :
    (version_probe dev).2.length ≤ 5 ∧
    (init_fatal dev ↔ 0x12 ∉ (version_probe dev).2) := by
  have h := probeLoop_fatal dev 5 0
  exact ⟨h.2, h.1⟩

/-- Claim C3 witness: instantiation at a chip that answers 0x12 on every
read. -/
theorem version_probe_fatal_iff_witness :
    (version_probe (fun _ => 0x12)).2.length ≤ 5 ∧
    (init_fatal (fun _ => 0x12) ↔ 0x12 ∉ (version_probe (fun _ => 0x12)).2) :=
  version_probe_fatal_iff (fun _ => 0x12)

/- ================================================================== -/
/- Claim C4.                                                          -/
/- ================================================================== -/

set_option maxHeartbeats 1000000

lemma binAt_vals :
    binAt 0 = 7800 ∧ binAt 1 = 10400 ∧ binAt 2 = 15600 ∧ binAt 3 = 20800 ∧
    binAt 4 = 31250 ∧ binAt 5 = 41700 ∧ binAt 6 = 62500 ∧ binAt 7 = 125000 ∧
    binAt 8 = 250000 := by decide

lemma bwIndex_eq_chain (b : ℕ) (hb : ¬ b < 10) :
    bwIndex b =
      if b ≤ 7800 then 0 else if b ≤ 10400 then 1 else if b ≤ 15600 then 2
      else if b ≤ 20800 then 3 else if b ≤ 31250 then 4 else if b ≤ 41700 then 5
      else if b ≤ 62500 then 6 else if b ≤ 125000 then 7 else if b ≤ 250000 then 8
      else 7 := by
  simp only [bwIndex, if_neg hb, bins, bwIndexLoop]

lemma bwIndex_cases (b : ℕ) :
    (b < 10 → bwIndex b = b) ∧
    (10 ≤ b → b ≤ 250000 → b ≤ binAt (bwIndex b) ∧ ∀ j < bwIndex b, binAt j < b) ∧
    (250000 < b → bwIndex b = 7) ∧
    bwIndex b ≤ 9 ∧ (10 ≤ b → bwIndex b ≤ 8) := by
  by_cases hb : b < 10
  · have he : bwIndex b = b := by simp [bwIndex, hb]
    exact ⟨fun _ => he, fun h10 => absurd h10 (by omega),
      fun h => absurd h (by omega), by omega, fun h10 => absurd h10 (by omega)⟩
  · have hc := bwIndex_eq_chain b hb
    obtain ⟨e0, e1, e2, e3, e4, e5, e6, e7, e8⟩ := binAt_vals
    refine ⟨fun h => absurd h hb, fun h10 h250 => ?_, fun h => ?_, ?_, fun h10 => ?_⟩
    · rw [hc]
      split_ifs with g1 g2 g3 g4 g5 g6 g7 g8 g9 <;>
        refine ⟨by simp only [e0, e1, e2, e3, e4, e5, e6, e7, e8]; omega,
          fun j hj => ?_⟩ <;>
        first
          | omega
          | (interval_cases j <;> simp only [e0, e1, e2, e3, e4, e5, e6, e7, e8] <;> omega)
    · rw [hc]; split_ifs <;> omega
    · rw [hc]; split_ifs <;> omega
    · rw [hc]; split_ifs <;> omega

/-- Claim C4 counterexample: a bandwidth request of 9 selects bin index 9,
which lies outside the range [0,8] asserted by the claim. -/
theorem bwIndex_nine_out_of_range : bwIndex 9 = 9 ∧ ¬ bwIndex 9 ≤ 8 := by decide

/-- Claim C4 (amended): for requests below 10 the bin index is the request
itself (hence possibly 9, not always in [0,8]); for requests of at least
10 it is the position of the smallest table entry at least as large as
the request, defaulting to 7 when no entry qualifies, and then lies in
[0,8]; the index is always at most 9 and is written into the top nibble
of ModemConfig1 with the low nibble preserved. -/
theorem set_signal_bandwidth_bin_selection (b : ℕ) (s : RegState)
    (hs : s REG_MODEM_CONFIG_1 < 256) :
    (b < 10 → bwIndex b = b) ∧
    (10 ≤ b → b ≤ 250000 → b ≤ binAt (bwIndex b) ∧ ∀ j < bwIndex b, binAt j < b) ∧
    (250000 < b → bwIndex b = 7) ∧
    bwIndex b ≤ 9 ∧ (10 ≤ b → bwIndex b ≤ 8) ∧
    set_signal_bandwidth s b REG_MODEM_CONFIG_1 &&& 0x0F
      = s REG_MODEM_CONFIG_1 &&& 0x0F ∧
    set_signal_bandwidth s b REG_MODEM_CONFIG_1 >>> 4 = bwIndex b := by
  obtain ⟨h1, h2, h3, h4, h5⟩ := bwIndex_cases b
  have hreg : set_signal_bandwidth s b REG_MODEM_CONFIG_1
      = (s REG_MODEM_CONFIG_1 &&& 0x0F) ||| (bwIndex b <<< 4) := by
    simp [set_signal_bandwidth, wreg]
  have hk : bwIndex b < 16 := by omega
  have hn := nibble_insert (s REG_MODEM_CONFIG_1) hs (bwIndex b) hk
  exact ⟨h1, h2, h3, h4, h5, by rw [hreg]; exact hn.1, by rw [hreg]; exact hn.2⟩

/-- Claim C4 witness: instantiation at request 125000 Hz and a concrete
register file. -/
theorem set_signal_bandwidth_bin_selection_witness :
    regSample REG_MODEM_CONFIG_1 < 256 ∧
    (10 ≤ 125000 → 125000 ≤ 250000 →
      125000 ≤ binAt (bwIndex 125000) ∧ ∀ j < bwIndex 125000, binAt j < 125000) := by
  refine ⟨by decide, ?_⟩
  exact (set_signal_bandwidth_bin_selection 125000 regSample (by decide)).2.1

/- ================================================================== -/
/- Claim C5.                                                          -/
/- ================================================================== -/

/-- Claim C5: set_frequency writes frf = ((f + offset) << 19) // 32000000
as three bytes MSB to LSB into the consecutive Frf registers 0x06-0x08,
and the 24-bit value recombined from those bytes is exactly frf, whose
exact reconstruction frf * 32000000 / 2^19 lies within one frequency step
(32000000 / 2^19, about 61 Hz) below the requested offset-adjusted
frequency. -/
theorem set_frequency_roundtrip (f off : ℕ) (h : f + off < 1024000000) :
    ∃ b2 b1 b0 : ℕ,
      set_frequency f off =
        [(REG_FRF_MSB, b2), (REG_FRF_MID, b1), (REG_FRF_LSB, b0)] ∧
      b2 < 256 ∧ b1 < 256 ∧ b0 < 256 ∧
      b2 * 65536 + b1 * 256 + b0 = (f + off) * 524288 / 32000000 ∧
      (b2 * 65536 + b1 * 256 + b0) * 32000000 ≤ (f + off) * 524288 ∧
      (f + off) * 524288 < (b2 * 65536 + b1 * 256 + b0) * 32000000 + 32000000 := by
  have e4 : (f + off) <<< 19 = (f + off) * 524288 := by
    rw [Nat.shiftLeft_eq_mul_pow]; norm_num
  have hx : (f + off) * 524288 / 32000000 < 16777216 := by omega
  have digit : (f + off) * 524288 / 32000000 / 65536 % 256 * 65536 +
      (f + off) * 524288 / 32000000 / 256 % 256 * 256 +
      (f + off) * 524288 / 32000000 % 256 = (f + off) * 524288 / 32000000 := by
    generalize (f + off) * 524288 / 32000000 = x at hx ⊢
    omega
  refine ⟨_, _, _, rfl, ?_, ?_, ?_, ?_, ?_, ?_⟩ <;>
    simp only [and_255_eq_mod, shr_16_eq_div, shr_8_eq_div, e4] <;> omega

/-- Claim C5 witness: instantiation at the default frequency 433 MHz with
zero offset. -/
theorem set_frequency_roundtrip_witness :
    433000000 + 0 < 1024000000 ∧
    (∃ b2 b1 b0 : ℕ,
      set_frequency 433000000 0 =
        [(REG_FRF_MSB, b2), (REG_FRF_MID, b1), (REG_FRF_LSB, b0)] ∧
      b2 < 256 ∧ b1 < 256 ∧ b0 < 256 ∧
      b2 * 65536 + b1 * 256 + b0 = (433000000 + 0) * 524288 / 32000000 ∧
      (b2 * 65536 + b1 * 256 + b0) * 32000000 ≤ (433000000 + 0) * 524288 ∧
      (433000000 + 0) * 524288 < (b2 * 65536 + b1 * 256 + b0) * 32000000 + 32000000) :=
  ⟨by norm_num, set_frequency_roundtrip 433000000 0 (by norm_num)⟩

/- ================================================================== -/
/- Claim C6.                                                          -/
/- ================================================================== -/

/-- Claim C6 counterexample: a preamble length of 65536 (one past the
16-bit range) is written as the two bytes (0, 0) - it wraps around to the
encoding of 0 instead of saturating to the encoding (255, 255) of the
range maximum 65535, refuting the claim that every out-of-range numeric
configuration input is clamped before being written to hardware. -/
theorem set_preamble_length_wraps :
    set_preamble_length 65536 = (0, 0) ∧
    set_preamble_length (min 65536 65535) = (0xFF, 0xFF) ∧
    set_preamble_length 65536 ≠ set_preamble_length (min 65536 65535) := by
  refine ⟨?_, ?_, ?_⟩ <;> decide

/-- Claim C6 (amended): power level, spreading factor and coding rate are
clamped (saturated) to the valid hardware ranges before encoding, but
preamble length and the expected receive size are reduced modulo 2^16 and
2^8 respectively (wrap-around masking, not saturation), and a bandwidth
request below 10 is used directly as a bin index without clamping; none
of these nonnegative inputs raises an error. -/
theorem clamp_and_mask (level d sf L size : ℕ) (s : RegState)
    (h1 : s REG_MODEM_CONFIG_1 < 256) (h2 : s REG_MODEM_CONFIG_2 < 256) :
    set_tx_power level PA_OUTPUT_RFO_PIN
      = set_tx_power (min (max level 0) 14) PA_OUTPUT_RFO_PIN ∧
    set_tx_power level PA_OUTPUT_PA_BOOST_PIN
      = set_tx_power (min (max level 2) 17) PA_OUTPUT_PA_BOOST_PIN ∧
    6 ≤ min (max sf 6) 12 ∧ min (max sf 6) 12 ≤ 12 ∧
    set_spreading_factor s sf REG_MODEM_CONFIG_2 >>> 4 = min (max sf 6) 12 ∧
    5 ≤ min (max d 5) 8 ∧ min (max d 5) 8 ≤ 8 ∧
    (set_coding_rate s d REG_MODEM_CONFIG_1 >>> 1) &&& 0x07 = min (max d 5) 8 - 4 ∧
    (set_preamble_length L).1 * 256 + (set_preamble_length L).2 = L % 65536 ∧
    receive_payload_length size = (if 0 < size then some (size % 256) else none) := by
  refine ⟨?_, ?_, by omega, by omega, ?_, by omega, by omega, ?_, ?_, ?_⟩
  · have h14 : min (max (min (max level 0) 14) 0) 14 = min (max level 0) 14 := by omega
    simp [set_tx_power, h14]
  · have h17 : min (max (min (max level 2) 17) 2) 17 = min (max level 2) 17 := by omega
    simp [set_tx_power, PA_OUTPUT_PA_BOOST_PIN, PA_OUTPUT_RFO_PIN, h17]
  · have hreg : set_spreading_factor s sf REG_MODEM_CONFIG_2
        = (s REG_MODEM_CONFIG_2 &&& 0x0F) ||| ((min (max sf 6) 12 <<< 4) &&& 0xF0) := by
      by_cases h6 : min (max sf 6) 12 = 6 <;>
        simp [set_spreading_factor, wreg, h6, REG_MODEM_CONFIG_2,
          REG_DETECTION_OPTIMIZE, REG_DETECTION_THRESHOLD]
    rw [hreg]
    exact (sf_field (s REG_MODEM_CONFIG_2) h2 (min (max sf 6) 12) (by omega)).2
  · have hreg : set_coding_rate s d REG_MODEM_CONFIG_1
        = (s REG_MODEM_CONFIG_1 &&& 0xF1) ||| ((min (max d 5) 8 - 4) <<< 1) := by
      simp [set_coding_rate, wreg]
    rw [hreg]
    exact (cr_field (s REG_MODEM_CONFIG_1) h1 (min (max d 5) 8 - 4) (by omega) (by omega)).2
  · simp only [set_preamble_length, and_255_eq_mod, shr_8_eq_div]
    omega
  · simp only [receive_payload_length, and_255_eq_mod]

/-- Claim C6 witness: instantiation at concrete out-of-range inputs. -/
theorem clamp_and_mask_witness :
    regSample REG_MODEM_CONFIG_1 < 256 ∧ regSample REG_MODEM_CONFIG_2 < 256 ∧
    set_tx_power 99 PA_OUTPUT_PA_BOOST_PIN
      = set_tx_power (min (max 99 2) 17) PA_OUTPUT_PA_BOOST_PIN := by
  refine ⟨by decide, by decide, ?_⟩
  exact (clamp_and_mask 99 0 0 0 0 regSample (by decide) (by decide)).2.1

/- ================================================================== -/
/- Claim C7.                                                          -/
/- ================================================================== -/

/-- Claim C7: every configuration setter that writes a register shared by
several configuration fields (bandwidth, coding rate and header mode share
ModemConfig1; spreading factor and CRC share ModemConfig2) first reads the
register and leaves the bits outside its own field unchanged, for every
prior register value. -/
theorem shared_register_setters_preserve (s : RegState) (sbw d sf : ℕ)
    (c : Bool) (st : HdrSt) (i : Bool)
    (h1 : s REG_MODEM_CONFIG_1 < 256) (h2 : s REG_MODEM_CONFIG_2 < 256)
    (h3 : st.mc1 < 256) :
    set_signal_bandwidth s sbw REG_MODEM_CONFIG_1 &&& 0x0F
      = s REG_MODEM_CONFIG_1 &&& 0x0F ∧
    set_coding_rate s d REG_MODEM_CONFIG_1 &&& 0xF1
      = s REG_MODEM_CONFIG_1 &&& 0xF1 ∧
    set_spreading_factor s sf REG_MODEM_CONFIG_2 &&& 0x0F
      = s REG_MODEM_CONFIG_2 &&& 0x0F ∧
    enable_crc s c REG_MODEM_CONFIG_2 &&& 0xFB
      = s REG_MODEM_CONFIG_2 &&& 0xFB ∧
    (set_implicit_header st i).1.mc1 &&& 0xFE = st.mc1 &&& 0xFE := by
  refine ⟨?_, ?_, ?_, ?_, ?_⟩
  · have hreg : set_signal_bandwidth s sbw REG_MODEM_CONFIG_1
        = (s REG_MODEM_CONFIG_1 &&& 0x0F) ||| (bwIndex sbw <<< 4) := by
      simp [set_signal_bandwidth, wreg]
    have hk : bwIndex sbw < 16 := by
      have := (bwIndex_cases sbw).2.2.2.1
      omega
    rw [hreg]
    exact (nibble_insert (s REG_MODEM_CONFIG_1) h1 (bwIndex sbw) hk).1
  · have hreg : set_coding_rate s d REG_MODEM_CONFIG_1
        = (s REG_MODEM_CONFIG_1 &&& 0xF1) ||| ((min (max d 5) 8 - 4) <<< 1) := by
      simp [set_coding_rate, wreg]
    rw [hreg]
    exact (cr_field (s REG_MODEM_CONFIG_1) h1 (min (max d 5) 8 - 4)
      (by omega) (by omega)).1
  · have hreg : set_spreading_factor s sf REG_MODEM_CONFIG_2
        = (s REG_MODEM_CONFIG_2 &&& 0x0F) ||| ((min (max sf 6) 12 <<< 4) &&& 0xF0) := by
      by_cases h6 : min (max sf 6) 12 = 6 <;>
        simp [set_spreading_factor, wreg, h6, REG_MODEM_CONFIG_2,
          REG_DETECTION_OPTIMIZE, REG_DETECTION_THRESHOLD]
    rw [hreg]
    exact (sf_field (s REG_MODEM_CONFIG_2) h2 (min (max sf 6) 12) (by omega)).1
  · have hcrc := crc_bit (s REG_MODEM_CONFIG_2) h2
    cases c <;> simp [enable_crc, wreg] <;> [exact hcrc.2; exact hcrc.1]
  · have hh := hdr_bit st.mc1 h3
    by_cases hc : st.cache = some i
    · simp [set_implicit_header, hc]
    · cases i <;> simp [set_implicit_header, hc] <;> [exact hh.2; exact hh.1]

/-- Claim C7 witness: instantiation at a concrete register file and
concrete setter arguments. -/
theorem shared_register_setters_preserve_witness :
    regSample REG_MODEM_CONFIG_1 < 256 ∧ regSample REG_MODEM_CONFIG_2 < 256 ∧
    (HdrSt.mk none 0x72).mc1 < 256 ∧
    set_coding_rate regSample 8 REG_MODEM_CONFIG_1 &&& 0xF1
      = regSample REG_MODEM_CONFIG_1 &&& 0xF1 := by
  refine ⟨by decide, by decide, by decide, ?_⟩
  exact (shared_register_setters_preserve regSample 125000 8 9 true
    (HdrSt.mk none 0x72) false (by decide) (by decide) (by decide)).2.1

/- ================================================================== -/
/- Claim C2.                                                          -/
/- ================================================================== -/

/-- Claim C2 counterexample: with IRQ flags 0x60 (RX-done latched together
with the payload-CRC-error flag 0x20) the RX-done bit is set, yet
received_packet returns false, because the code compares the whole flags
byte for equality with 0x40 instead of testing the bit. -/
theorem received_packet_misses_rx_done :
    (received_packet (some false) 0 0x60 0x86 0).1 = false ∧
    0x60 &&& IRQ_RX_DONE_MASK = IRQ_RX_DONE_MASK := by
  refine ⟨?_, by decide⟩
  rfl

/-- Claim C2 (amended): received_packet reads and writes back the IRQ
flags and returns true exactly when the flags byte equals 0x40 (RX-done
set and no other flag latched); otherwise it returns false and, when the
operating mode is not single-receive (0x86), it resets the FIFO address
pointer to the RX base address and switches to single-receive mode, and
when the mode already is single-receive it touches neither of those two
registers. -/
theorem received_packet_characterization (cache : Option Bool)
    (mc1 irq op_mode : ℕ) :
    ((received_packet cache mc1 irq op_mode 0).1 = true ↔ irq = 0x40) ∧
    (REG_IRQ_FLAGS, irq) ∈ (received_packet cache mc1 irq op_mode 0).2.1 ∧
    (irq ≠ 0x40 → (received_packet cache mc1 irq op_mode 0).1 = false) ∧
    (irq ≠ 0x40 → op_mode ≠ 0x86 →
      (REG_FIFO_ADDR_PTR, FifoRxBaseAddr) ∈ (received_packet cache mc1 irq op_mode 0).2.1 ∧
      (REG_OP_MODE, 0x86) ∈ (received_packet cache mc1 irq op_mode 0).2.1) ∧
    (irq ≠ 0x40 → op_mode = 0x86 → ∀ v,
      (REG_OP_MODE, v) ∉ (received_packet cache mc1 irq op_mode 0).2.1 ∧
      (REG_FIFO_ADDR_PTR, v) ∉ (received_packet cache mc1 irq op_mode 0).2.1) := by
  by_cases hi : irq = 0x40 <;> by_cases hm : op_mode = 0x86 <;>
    by_cases hc : cache = some false <;>
      simp [received_packet, hi, hm, hc, IRQ_RX_DONE_MASK, MODE_LONG_RANGE_MODE,
        MODE_RX_SINGLE, REG_IRQ_FLAGS, REG_FIFO_ADDR_PTR, REG_OP_MODE,
        REG_MODEM_CONFIG_1, FifoRxBaseAddr]

/-- Claim C2 witness: instantiation of the re-arm branch at flags 0 and
continuous-receive mode. -/
theorem received_packet_characterization_witness :
    (0 : ℕ) ≠ 0x40 ∧ (0x85 : ℕ) ≠ 0x86 ∧
    ((REG_FIFO_ADDR_PTR, FifoRxBaseAddr) ∈ (received_packet none 0 0 0x85 0).2.1 ∧
     (REG_OP_MODE, 0x86) ∈ (received_packet none 0 0 0x85 0).2.1) := by
  refine ⟨by decide, by decide, ?_⟩
  exact (received_packet_characterization none 0 0 0x85).2.2.2.1 (by decide) (by decide)

/- ================================================================== -/
/- Claim C8.                                                          -/
/- ================================================================== -/

/-- A register file with the low-data-rate-optimization bit latched in
ModemConfig3 and spreading factor 9 in ModemConfig2, used to exhibit that
the bandwidth setter does not recompute that bit. -/
def c8State : RegState := fun a =>
  if a = REG_MODEM_CONFIG_3 then 0x0C
  else if a = REG_MODEM_CONFIG_2 then 0x94 else 0

/-- Claim C8 counterexample: starting from a register file whose
ModemConfig3 has the 0x08 bit set, set_signal_bandwidth(250000) leaves the
bit set even though the symbol duration 1000/250000/2^9 for the newly
effective parameters does not exceed 16 ms, so the bit is not recomputed
by the bandwidth setter as the claim states. -/
theorem ldo_not_recomputed_by_setters :
    set_signal_bandwidth c8State 250000 REG_MODEM_CONFIG_3 &&& 0x08 = 0x08 ∧
    ¬ (1000 / (250000 : ℚ) / 2 ^ 9 > 16) := by
  constructor
  · decide
  · norm_num

/-- Claim C8 (amended): neither set_signal_bandwidth nor
set_spreading_factor touches ModemConfig3, so the low-data-rate
optimization bit is never recomputed by them; it is set only by the
construction-time check, which ORs 0x08 into ModemConfig3 exactly when
1000/bandwidth/2^SF exceeds 16 for the constructor parameters. -/
theorem ldo_set_only_at_construction (s : RegState) (sbw sf : ℕ)
    (bw : ℚ) (sf0 : ℕ)
    (hv : s REG_MODEM_CONFIG_3 < 256) (hbit : s REG_MODEM_CONFIG_3 &&& 0x08 = 0) :
    set_signal_bandwidth s sbw REG_MODEM_CONFIG_3 = s REG_MODEM_CONFIG_3 ∧
    set_spreading_factor s sf REG_MODEM_CONFIG_3 = s REG_MODEM_CONFIG_3 ∧
    (init_low_data_rate_optimize s bw sf0 REG_MODEM_CONFIG_3 &&& 0x08 = 0x08
      ↔ 1000 / bw / 2 ^ sf0 > 16) := by
  refine ⟨?_, ?_, ?_⟩
  · simp [set_signal_bandwidth, wreg, REG_MODEM_CONFIG_3, REG_MODEM_CONFIG_1]
  · by_cases h6 : min (max sf 6) 12 = 6 <;>
      simp [set_spreading_factor, wreg, h6, REG_MODEM_CONFIG_3, REG_MODEM_CONFIG_2,
        REG_DETECTION_OPTIMIZE, REG_DETECTION_THRESHOLD]
  · by_cases hq : 1000 / bw / 2 ^ sf0 > 16
    · simp only [init_low_data_rate_optimize, if_pos hq, wreg, if_pos rfl]
      exact iff_of_true (ldo_bit (s REG_MODEM_CONFIG_3) hv hbit) hq
    · simp only [init_low_data_rate_optimize, if_neg hq]
      constructor
      · intro hcontra; omega
      · intro hcontra; exact absurd hcontra hq

/-- Claim C8 witness: instantiation at an all-zero register file, default
bandwidth 125 kHz and spreading factor 9, where the construction-time
check leaves the bit clear. -/
theorem ldo_set_only_at_construction_witness :
    ((fun _ => 0 : RegState) REG_MODEM_CONFIG_3 < 256 ∧
     (fun _ => 0 : RegState) REG_MODEM_CONFIG_3 &&& 0x08 = 0) ∧
    (init_low_data_rate_optimize (fun _ => 0) 125000 9 REG_MODEM_CONFIG_3 &&& 0x08 = 0x08
      ↔ 1000 / (125000 : ℚ) / 2 ^ 9 > 16) :=
  ⟨⟨by decide, by decide⟩,
   (ldo_set_only_at_construction (fun _ => 0) 0 0 125000 9 (by decide) (by decide)).2.2⟩

/- ================================================================== -/
/- Claim C9.                                                          -/
/- ================================================================== -/

/-- Claim C9: for every requested header mode and every starting cached
state, calling set_implicit_header twice in a row performs exactly one
ModemConfig1 write when the cache differed from the request and zero
writes when it already matched, and the second call performs no register
access at all (neither reads nor writes). -/
theorem set_implicit_header_idempotent (st : HdrSt) (x : Bool) :
    (st.cache ≠ some x → (set_implicit_header st x).2.2 = 1) ∧
    (st.cache = some x → (set_implicit_header st x).2.2 = 0) ∧
    (set_implicit_header (set_implicit_header st x).1 x).2.1 = 0 ∧
    (set_implicit_header (set_implicit_header st x).1 x).2.2 = 0 ∧
    (set_implicit_header st x).2.2
        + (set_implicit_header (set_implicit_header st x).1 x).2.2
      = (if st.cache = some x then 0 else 1) := by
  by_cases h : st.cache = some x <;> simp [set_implicit_header, h]

/-- Claim C9 witness: instantiation at the unknown initial cache and an
explicit ModemConfig1 byte. -/
theorem set_implicit_header_idempotent_witness :
    (HdrSt.mk none 0x72).cache ≠ some true ∧
    (set_implicit_header (HdrSt.mk none 0x72) true).2.2 = 1 :=
  ⟨by decide, (set_implicit_header_idempotent (HdrSt.mk none 0x72) true).1 (by decide)⟩

/- ================================================================== -/
/- Claim C10.                                                         -/
/- ================================================================== -/

/-- Claim C10: get_irq_flags writes back to the IRQ-flags register the
exact byte it read and returns it; consequently, under the
write-one-to-clear semantics of the chip, every latched event flag (CRC error and RX
timeout included) is cleared on every received_packet poll, and whenever
the flags byte differs from exactly 0x40 the call still clears everything
while returning false, so a latched CRC-error indication is consumed
without being surfaced. -/
theorem irq_flags_cleared_each_poll (irq : ℕ) (h : irq < 256)
    (cache : Option Bool) (mc1 op_mode size : ℕ) :
    (get_irq_flags irq).1 = irq ∧
    (get_irq_flags irq).2 = [(REG_IRQ_FLAGS, irq)] ∧
    (REG_IRQ_FLAGS, irq) ∈ (received_packet cache mc1 irq op_mode size).2.1 ∧
    irqAfterWrite irq irq = 0 ∧
    (irq ≠ IRQ_RX_DONE_MASK → (received_packet cache mc1 irq op_mode size).1 = false) := by
  refine ⟨rfl, rfl, ?_, irq_self_clear irq h, ?_⟩
  · unfold received_packet
    split_ifs <;> simp
  · intro hne
    unfold received_packet
    simp only [IRQ_RX_DONE_MASK] at hne
    split_ifs with g1 g2 <;> simp_all [IRQ_RX_DONE_MASK]

/-- Claim C10 witness: a poll that finds RX-done and CRC-error latched
together (0x60) returns false yet clears both flags. -/
theorem irq_flags_cleared_each_poll_witness :
    (0x60 : ℕ) < 256 ∧ (0x60 : ℕ) ≠ IRQ_RX_DONE_MASK ∧
    irqAfterWrite 0x60 0x60 = 0 ∧
    (received_packet (some false) 0 0x60 0x86 0).1 = false := by
  refine ⟨by decide, by decide, ?_, ?_⟩
  · exact (irq_flags_cleared_each_poll 0x60 (by decide) (some false) 0 0x86 0).2.2.2.1
  · exact (irq_flags_cleared_each_poll 0x60 (by decide) (some false) 0 0x86 0).2.2.2.2
      (by decide)

end ULoRa
